import Mathlib

set_option maxRecDepth 8000

/-!
Verification of the azure-auto-provisioning scripts.

The development shallowly embeds the two Python scripts of the repository:
src/scripts/validate.py (post-provisioning validation pipeline) and
src/scripts/parse_input.py (request validation and tfvars generation).
JSON documents, as produced by json.loads, are modelled by the inductive
type JVal; the Python operations the scripts perform on them (membership
with the in operator, subscripting, len, iteration, truthiness, str) are
modelled faithfully, including the cases in which CPython raises a
TypeError, a KeyError or an AttributeError: such a raise is modelled as
the error case of Except, since validate.py does not catch these
exceptions and the interpreter then terminates the process with exit
code 1.
-/

/-- A JSON value as decoded by Python json.loads: None, bool, int, str,
list, dict (a dict is kept as its insertion-ordered key/value list).
Numbers are restricted to integers, the only numeric shape these scripts
and the claims exercise. -/
inductive JVal where
  | null : JVal
  | bool : Bool → JVal
  | num : Int → JVal
  | str : String → JVal
  | arr : List JVal → JVal
  | obj : List (String × JVal) → JVal

/-- First value bound to a key in a Python dict, modelled on the
insertion-ordered entry list. -/
def lookupKey (kvs : List (String × JVal)) (k : String) : Option JVal :=
  (kvs.find? (fun kv => kv.1 = k)).map (fun kv => kv.2)

/-- Boolean test that the first character list is a prefix of the second. -/
def charsPrefixOf (p s : List Char) : Bool :=
  match p, s with
  | [], _ => true
  | _ :: _, [] => false
  | a :: ps, b :: ss => a == b && charsPrefixOf ps ss

/-- Boolean test that the first character list occurs contiguously inside
the second, the semantics of the Python substring membership test. -/
def charsSubstrOf (p s : List Char) : Bool :=
  match s with
  | [] => charsPrefixOf p []
  | b :: ss => charsPrefixOf p (b :: ss) || charsSubstrOf p ss

/-- Python membership test with a string on the left: for a dict it is key
membership, for a list element equality (a Python string equals only an
equal string), for a string the substring test; for None, bool and int
CPython raises TypeError, modelled as the error case. -/
def pyIn (k : String) : JVal → Except Unit Bool
  | .obj kvs => .ok (lookupKey kvs k).isSome
  | .arr xs => .ok (xs.any (fun v => match v with | .str s => s = k | _ => false))
  | .str s => .ok (charsSubstrOf k.toList s.toList)
  | _ => .error ()

/-- Python subscripting with a string key: defined for dicts with the key
present; a missing key raises KeyError and a non-dict raises TypeError,
both modelled as the error case. -/
def pyGet (x : JVal) (k : String) : Except Unit JVal :=
  match x with
  | .obj kvs =>
    match lookupKey kvs k with
    | some v => .ok v
    | none => .error ()
  | _ => .error ()

/-- Python dict.get with a default: defined only for dicts, since other
values have no get attribute (AttributeError, modelled as the error
case). -/
def pyGetD (x : JVal) (k : String) (dflt : JVal) : Except Unit JVal :=
  match x with
  | .obj kvs => .ok ((lookupKey kvs k).getD dflt)
  | _ => .error ()

/-- Python len: defined for strings, lists and dicts; raises TypeError on
None, bool and int. -/
def pyLen : JVal → Except Unit Nat
  | .str s => .ok s.length
  | .arr xs => .ok xs.length
  | .obj kvs => .ok kvs.length
  | _ => .error ()

/-- Python iteration as a list of produced values: characters of a string,
elements of a list, keys of a dict; None, bool and int are not iterable
(TypeError). -/
def pyIterList : JVal → Except Unit (List JVal)
  | .str s => .ok (s.toList.map (fun c => .str c.toString))
  | .arr xs => .ok xs
  | .obj kvs => .ok (kvs.map (fun kv => .str kv.1))
  | _ => .error ()

/-- Python truthiness of a JSON value. -/
def pyTruthy : JVal → Bool
  | .null => false
  | .bool b => b
  | .num n => n != 0
  | .str s => !s.isEmpty
  | .arr xs => !xs.isEmpty
  | .obj kvs => !kvs.isEmpty

mutual

/-- Python repr of a JSON value, as used when str is applied to a list or
dict: None, True, False, numbers bare, strings in single quotes (string
escaping is not modelled; the scripts only render plain identifiers). -/
def pyRepr : JVal → String
  | .null => "None"
  | .bool true => "True"
  | .bool false => "False"
  | .num n => toString n
  | .str s => "\x27" ++ s ++ "\x27"
  | .arr xs => "[" ++ String.intercalate ", " (pyReprList xs) ++ "]"
  | .obj kvs => "\x7b" ++ String.intercalate ", " (pyReprObj kvs) ++ "\x7d"

/-- Python repr of each element of a list. -/
def pyReprList : List JVal → List String
  | [] => []
  | x :: xs => pyRepr x :: pyReprList xs

/-- Python repr of each entry of a dict. -/
def pyReprObj : List (String × JVal) → List String
  | [] => []
  | kv :: kvs => ("\x27" ++ kv.1 ++ "\x27: " ++ pyRepr kv.2) :: pyReprObj kvs

end

/-- Python str of a JSON value, as applied by f-string interpolation:
a string renders without quotes, everything else as its repr. -/
def pyStr : JVal → String
  | .str s => s
  | v => pyRepr v

/-- Result of one run_command invocation followed by the json.loads
attempt of its caller: unavailable when the external command exited
non-zero or produced empty output (run_command then yields a falsy
result), unparsable when the captured text is not JSON, parsed otherwise. -/
inductive BackendResp where
  | unavailable : BackendResp
  | unparsable : BackendResp
  | parsed : JVal → BackendResp

/-- Embedding of check_terraform_state (validate.py lines 28-45): False
when the command failed or its output was empty or not JSON; on a parsed
state, True exactly when the Python condition
(quote: values in state and root_module in state[values]) evaluates to
True; a TypeError raised by that condition propagates (error case). -/
def check_terraform_state : BackendResp → Except Unit Bool
  | .unavailable => .ok false
  | .unparsable => .ok false
  | .parsed state =>
    match pyIn "values" state with
    | .error e => .error e
    | .ok false => .ok false
    | .ok true =>
      match pyGet state "values" with
      | .error e => .error e
      | .ok v =>
        match pyIn "root_module" v with
        | .error e => .error e
        | .ok b => .ok b

/-- Embedding of get_terraform_outputs (validate.py lines 47-60): none
when the command failed, produced empty output, or its output was not
JSON; otherwise the parsed document. -/
def get_terraform_outputs : BackendResp → Option JVal
  | .unavailable => none
  | .unparsable => none
  | .parsed v => some v

/-- One presence-and-access check of validate_resources: test key
membership; when present, subscript the entry and its value member as the
source does, optionally taking len and iterating as the source does for
that key, and report found; when absent report not found. Any raised
TypeError or KeyError propagates. -/
def checkKeyValue (outputs : JVal) (key : String) (useLen useIter : Bool) :
    Except Unit Bool :=
  match pyIn key outputs with
  | .error e => .error e
  | .ok false => .ok false
  | .ok true =>
    match pyGet outputs key with
    | .error e => .error e
    | .ok entry =>
      match pyGet entry "value" with
      | .error e => .error e
      | .ok inner =>
        match (if useLen then (pyLen inner).map (fun _ => ()) else .ok ()) with
        | .error e => .error e
        | .ok _ =>
          match (if useIter then (pyIterList inner).map (fun _ => ()) else .ok ()) with
          | .error e => .error e
          | .ok _ => .ok true

/-- Embedding of validate_resources (validate.py lines 62-104): checks the
four expected keys in order, printing one diagnostic per missing key
(collected here as the returned list, in print order) and returning the
conjunction; the value of each present key is subscripted with value, and
for vm_names and vm_public_ips also measured with len and iterated, for
vm_private_ips measured with len, exactly as the source prints them. -/
def validate_resources (outputs : JVal) : Except Unit (Bool × List String) :=
  match checkKeyValue outputs "resource_group_name" false false with
  | .error e => .error e
  | .ok r1 =>
    match checkKeyValue outputs "vm_names" true true with
    | .error e => .error e
    | .ok r2 =>
      match checkKeyValue outputs "vm_public_ips" true true with
      | .error e => .error e
      | .ok r3 =>
        match checkKeyValue outputs "vm_private_ips" true false with
        | .error e => .error e
        | .ok r4 =>
          .ok (r1 && r2 && r3 && r4,
            (if r1 then [] else ["Resource Group not found"]) ++
            (if r2 then [] else ["Virtual Machines not found"]) ++
            (if r3 then [] else ["Public IPs not found"]) ++
            (if r4 then [] else ["Private IPs not found"]))

/-- Embedding of ping_vms (validate.py lines 106-131): when vm_public_ips
is absent the probe is skipped and True returned; otherwise each address
is pinged in order and the outcome only printed, the function returning
True regardless. The reachability of each address is supplied by the
oracle reach; the returned list records the observed outcomes. -/
def ping_vms (outputs : JVal) (reach : JVal → Bool) :
    Except Unit (Bool × List Bool) :=
  match pyIn "vm_public_ips" outputs with
  | .error e => .error e
  | .ok false => .ok (true, [])
  | .ok true =>
    match pyGet outputs "vm_public_ips" with
    | .error e => .error e
    | .ok entry =>
      match pyGet entry "value" with
      | .error e => .error e
      | .ok inner =>
        match pyIterList inner with
        | .error e => .error e
        | .ok ips => .ok (true, ips.map reach)

/-- Embedding of generate_report (validate.py lines 133-162): on a falsy
outputs value only the no-data marker is printed; otherwise the seven
summary fields are read from provisioning_summary value with dict.get
defaults and printed via str, and when connection_commands is present its
value is iterated and each command printed. The report is modelled as the
list of rendered summary fields together with the optional rendered
command list. -/
def generate_report (outputs : JVal) :
    Except Unit (List String × Option (List String)) :=
  if pyTruthy outputs = false then .ok ([], none)
  else
    match pyGetD outputs "provisioning_summary" (.obj []) with
    | .error e => .error e
    | .ok ps =>
      match pyGetD ps "value" (.obj []) with
      | .error e => .error e
      | .ok summary =>
        match pyGetD summary "environment" (.str "N/A") with
        | .error e => .error e
        | .ok f1 =>
          match pyGetD summary "project_name" (.str "N/A") with
          | .error e => .error e
          | .ok f2 =>
            match pyGetD summary "location" (.str "N/A") with
            | .error e => .error e
            | .ok f3 =>
              match pyGetD summary "vm_count" (.str "N/A") with
              | .error e => .error e
              | .ok f4 =>
                match pyGetD summary "vm_size" (.str "N/A") with
                | .error e => .error e
                | .ok f5 =>
                  match pyGetD summary "os_type" (.str "N/A") with
                  | .error e => .error e
                  | .ok f6 =>
                    match pyGetD summary "creation_time" (.str "N/A") with
                    | .error e => .error e
                    | .ok f7 =>
                      match pyIn "connection_commands" outputs with
                      | .error e => .error e
                      | .ok false =>
                        .ok ([f1, f2, f3, f4, f5, f6, f7].map pyStr, none)
                      | .ok true =>
                        match pyGet outputs "connection_commands" with
                        | .error e => .error e
                        | .ok entry =>
                          match pyGet entry "value" with
                          | .error e => .error e
                          | .ok inner =>
                            match pyIterList inner with
                            | .error e => .error e
                            | .ok cmds =>
                              .ok ([f1, f2, f3, f4, f5, f6, f7].map pyStr,
                                some (cmds.map pyStr))

/-- Pipeline stage markers, recording which component invocations a run of
main performs: the two BackendClient queries, ResourceValidator,
ConnectivityProbe and ReportGenerator. -/
inductive Stage where
  | fetchState : Stage
  | fetchOutputs : Stage
  | validating : Stage
  | probing : Stage
  | reporting : Stage
deriving DecidableEq, Repr

/-- Terminal state of a run of main: normal completion, an explicit
validation failure with the printed reason, or termination by an uncaught
Python exception. -/
inductive Terminal where
  | done : Terminal
  | failed : String → Terminal
  | crashed : Terminal
deriving DecidableEq, Repr

/-- Process exit code of a terminal state: 0 on Done, 1 on an explicit
sys.exit(1) failure and 1 on an uncaught exception (the CPython
interpreter exit code for an unhandled exception). -/
def exit_code : Terminal → Nat
  | .done => 0
  | .failed _ => 1
  | .crashed => 1

/-- Environment of one run of main: the backend response to the state
query, the backend response to the outputs query, and the reachability
oracle consulted by the ping probe. -/
structure Env where
  stateResp : BackendResp
  outputsResp : BackendResp
  reach : JVal → Bool

/-- Embedding of main (validate.py lines 164-191): the sequence of stages
performed and the terminal state. Step 1 exits 1 unless
check_terraform_state returns True; step 2 exits 1 when the outputs are
None or falsy (the Python condition, quote: if not outputs); step 3 exits
1 when validate_resources returns False; step 4 runs ping_vms, whose
result is not consulted; step 5 runs generate_report and the run
completes. An exception raised in any step terminates the run there. -/
def runPipeline (env : Env) : List Stage × Terminal :=
  match check_terraform_state env.stateResp with
  | .error _ => ([.fetchState], .crashed)
  | .ok false => ([.fetchState], .failed "Invalid Terraform state")
  | .ok true =>
    match get_terraform_outputs env.outputsResp with
    | none => ([.fetchState, .fetchOutputs], .failed "Could not retrieve outputs")
    | some outs =>
      if pyTruthy outs = false then
        ([.fetchState, .fetchOutputs], .failed "Could not retrieve outputs")
      else
        match validate_resources outs with
        | .error _ => ([.fetchState, .fetchOutputs, .validating], .crashed)
        | .ok (false, _) =>
          ([.fetchState, .fetchOutputs, .validating], .failed "Missing resources")
        | .ok (true, _) =>
          match ping_vms outs env.reach with
          | .error _ =>
            ([.fetchState, .fetchOutputs, .validating, .probing], .crashed)
          | .ok _ =>
            match generate_report outs with
            | .error _ =>
              ([.fetchState, .fetchOutputs, .validating, .probing, .reporting],
                .crashed)
            | .ok _ =>
              ([.fetchState, .fetchOutputs, .validating, .probing, .reporting],
                .done)

/-- Diagnostic of a failed validate_input run in parse_input.py: the
missing-field message with the field name, the vm_count message, or the
environment message. -/
inductive InputError where
  | missingField : String → InputError
  | badVmCount : InputError
  | badEnvironment : InputError
deriving DecidableEq, Repr

/-- Required fields of parse_input.py line 13, in declaration order. -/
def required_fields : List String :=
  ["environment", "vm_count", "vm_size", "location", "project_name"]

/-- The for loop of validate_input (parse_input.py lines 15-18): the first
field whose membership test fails, short-circuiting; a TypeError raised by
a membership test propagates. -/
def findMissingField (fields : List String) (data : JVal) :
    Except Unit (Option String) :=
  match fields with
  | [] => .ok none
  | f :: rest =>
    match pyIn f data with
    | .error e => .error e
    | .ok true => findMissingField rest data
    | .ok false => .ok (some f)

/-- Python isinstance test against int: holds for int and, because bool is
a subtype of int in Python, also for bool. -/
def isPyInt : JVal → Bool
  | .num _ => true
  | .bool _ => true
  | _ => false

/-- Numeric value of a Python int-like value: the integer itself, or 1 and
0 for True and False. -/
def pyIntVal : JVal → Int
  | .num n => n
  | .bool b => if b then 1 else 0
  | _ => 0

/-- Allowed environments of parse_input.py line 26. -/
def valid_envs : List String := ["dev", "staging", "production"]

/-- Embedding of validate_input (parse_input.py lines 11-32): required
fields are checked in order with the first missing one reported; then
vm_count must satisfy isinstance int and be at least 1; then environment
must be one of the allowed strings (a non-string never equals a Python
string, so any non-string environment fails that test). The result none
means the validation passed. -/
def validate_input (data : JVal) : Except Unit (Option InputError) :=
  match findMissingField required_fields data with
  | .error e => .error e
  | .ok (some f) => .ok (some (.missingField f))
  | .ok none =>
    match pyGet data "vm_count" with
    | .error e => .error e
    | .ok vc =>
      if !isPyInt vc || decide (pyIntVal vc < 1) then .ok (some .badVmCount)
      else
        match pyGet data "environment" with
        | .error e => .error e
        | .ok env =>
          if (match env with | .str s => valid_envs.contains s | _ => false) then
            .ok none
          else .ok (some .badEnvironment)

/-- The fixed leading part of the tfvars f-string of parse_input.py lines
49-59: the two comment lines, then the seven assignments with the exact
padding of the source, strings interpolated through str and quoted,
vm_count interpolated through str unquoted, and admin_username and os_type
defaulted through dict.get. A KeyError on a required field or an
AttributeError of dict.get on a non-dict propagates. -/
def tfvars_base (input_file : String) (data : JVal) : Except Unit String :=
  match pyGet data "environment" with
  | .error e => .error e
  | .ok env =>
    match pyGet data "project_name" with
    | .error e => .error e
    | .ok pn =>
      match pyGet data "location" with
      | .error e => .error e
      | .ok loc =>
        match pyGet data "vm_count" with
        | .error e => .error e
        | .ok vc =>
          match pyGet data "vm_size" with
          | .error e => .error e
          | .ok vs =>
            match pyGetD data "admin_username" (.str "azureuser") with
            | .error e => .error e
            | .ok au =>
              match pyGetD data "os_type" (.str "linux") with
              | .error e => .error e
              | .ok ot =>
                .ok ("# Auto-generated Terraform variables\n# Generated from: "
                  ++ input_file
                  ++ "\n\nenvironment      = \"" ++ pyStr env
                  ++ "\"\nproject_name     = \"" ++ pyStr pn
                  ++ "\"\nlocation         = \"" ++ pyStr loc
                  ++ "\"\nvm_count         = " ++ pyStr vc
                  ++ "\nvm_size          = \"" ++ pyStr vs
                  ++ "\"\nadmin_username   = \"" ++ pyStr au
                  ++ "\"\nos_type          = \"" ++ pyStr ot
                  ++ "\"\n")

/-- The tags block of parse_input.py lines 63-66: an opening line, one
two-space-indented key = quoted-str-value line per entry in insertion
order, and a closing line. -/
def renderTags (tkvs : List (String × JVal)) : String :=
  "\ntags = \x7b\n"
    ++ String.join (tkvs.map (fun kv => "  " ++ kv.1 ++ " = \"" ++ pyStr kv.2 ++ "\"\n"))
    ++ "\x7d\n"

/-- Embedding of the tfvars_content computation of parse_input (lines
49-66): the base block, followed by the tags block when the tags key is
present and its value truthy; iterating items of a truthy non-dict tags
value raises AttributeError, modelled as the error case. -/
def tfvars_content (input_file : String) (data : JVal) : Except Unit String :=
  match tfvars_base input_file data with
  | .error e => .error e
  | .ok base =>
    match pyIn "tags" data with
    | .error e => .error e
    | .ok false => .ok base
    | .ok true =>
      match pyGet data "tags" with
      | .error e => .error e
      | .ok t =>
        if pyTruthy t then
          match t with
          | .obj tkvs => .ok (base ++ renderTags tkvs)
          | _ => .error ()
        else .ok base

/-- Boolean test that pat occurs as a contiguous substring of s. -/
def strContains (s pat : String) : Bool :=
  charsSubstrOf pat.toList s.toList

/-- Modelled from the wording of the specification (section 3,
BackendState): the parsed state contains a non-empty root-module
structure under a values key, read as: the document is a mapping whose
values entry is a mapping (hence a structure, non-empty once it has the
root_module member) containing the key root_module. -/
def specStateValid (state : JVal) : Bool :=
  match state with
  | .obj kvs =>
    match lookupKey kvs "values" with
    | some (.obj vkvs) => (lookupKey vkvs "root_module").isSome
    | _ => false
  | _ => false

/-- The condition under which check_terraform_state accepts a parsed
state: the document is a mapping with a values entry whose value contains
root_module under Python membership semantics, that is as a key of a
mapping, as an element of a list, or as a substring of a string. -/
def membershipStateValid (state : JVal) : Bool :=
  match state with
  | .obj kvs =>
    match lookupKey kvs "values" with
    | some v => (match pyIn "root_module" v with | .ok b => b | .error _ => false)
    | none => false
  | _ => false

/-- The four output keys validate_resources requires, in check order. -/
def requiredOutputKeys : List String :=
  ["resource_group_name", "vm_names", "vm_public_ips", "vm_private_ips"]

/-- The diagnostic validate_resources prints for each missing key. -/
def missingKeyDiag : String → String
  | "resource_group_name" => "Resource Group not found"
  | "vm_names" => "Virtual Machines not found"
  | "vm_public_ips" => "Public IPs not found"
  | _ => "Private IPs not found"

/-- Presence of a key in an outputs document, for mapping documents. -/
def outputKeyPresent (outputs : JVal) (k : String) : Bool :=
  match outputs with
  | .obj kvs => (lookupKey kvs k).isSome
  | _ => false

/-- All four required output keys are present. -/
def requiredKeysPresent (outputs : JVal) : Bool :=
  requiredOutputKeys.all (outputKeyPresent outputs)

/-- The diagnostics of the missing required keys, one per missing key, in
check order. -/
def missingKeyDiags (outputs : JVal) : List String :=
  (requiredOutputKeys.filter (fun k => !outputKeyPresent outputs k)).map missingKeyDiag

/-- Shape of one entry of a BackendOutputs document per section 3 of the
specification: a mapping holding a value member whose content is a string,
a sequence or a mapping; for provisioning_summary the content is the
summary mapping. -/
def goodOutputValue (k : String) : JVal → Bool
  | .obj kvs =>
    match lookupKey kvs "value" with
    | some t =>
      if k = "provisioning_summary" then
        match t with | .obj _ => true | _ => false
      else
        match t with
        | .str _ => true
        | .arr _ => true
        | .obj _ => true
        | _ => false
    | none => false
  | _ => false

/-- A document matching the BackendOutputs data model of section 3 of the
specification: a mapping from names to value wrappers of the shapes the
model describes; any key may be absent. -/
def IsBackendOutputs : JVal → Bool
  | .obj kvs => kvs.all (fun kv => goodOutputValue kv.1 kv.2)
  | _ => false

/-- First required field missing from a mapping-shaped request, in the
declaration order of required_fields. -/
def firstMissingReq (kvs : List (String × JVal)) : Option String :=
  required_fields.find? (fun f => (lookupKey kvs f).isNone)

/-- Acceptance condition of the vm_count check of validate_input under
Python semantics: an int of value at least 1, where True counts as the
int 1 and False as the int 0. -/
def vm_count_ok : JVal → Bool
  | .num n => decide (1 ≤ n)
  | .bool b => b
  | _ => false

/-- A parsed state with the values and root_module structure. -/
def stateRootModule : JVal := .obj [("values", .obj [("root_module", .obj [])])]

/-- A parsed state whose values entry is the bare string root_module. -/
def stateStringValues : JVal := .obj [("values", .str "root_module")]

/-- Outputs carrying all four required keys with well-shaped values. -/
def outputsComplete : List (String × JVal) :=
  [("resource_group_name", .obj [("value", .str "demo-rg")]),
   ("vm_names", .obj [("value", .arr [.str "vm1"])]),
   ("vm_public_ips", .obj [("value", .arr [.str "1.2.3.4"])]),
   ("vm_private_ips", .obj [("value", .arr [.str "10.0.0.4"])])]

/-- Outputs carrying only resource_group_name and vm_names. -/
def outputsTwoKeys : List (String × JVal) :=
  [("resource_group_name", .obj [("value", .str "demo-rg")]),
   ("vm_names", .obj [("value", .arr [.str "vm1"])])]

/-- Outputs with all four required keys but an un-sized vm_names value. -/
def outputsBadShape : List (String × JVal) :=
  [("resource_group_name", .obj [("value", .str "demo-rg")]),
   ("vm_names", .obj [("value", .num 5)]),
   ("vm_public_ips", .obj [("value", .arr [])]),
   ("vm_private_ips", .obj [("value", .arr [])])]

/-- Outputs with all four keys present and a string as the vm_names value
content, a shape the validator accepts although it is not a sequence. -/
def outputsStrNames : List (String × JVal) :=
  [("resource_group_name", .obj [("value", .str "demo-rg")]),
   ("vm_names", .obj [("value", .str "ab")]),
   ("vm_public_ips", .obj [("value", .arr [.str "1.2.3.4"])]),
   ("vm_private_ips", .obj [("value", .arr [.str "10.0.0.4"])])]

/-- Environment whose state query fails. -/
def envStateDown : Env := ⟨.unavailable, .unavailable, fun _ => false⟩

/-- Environment with a valid state and an empty outputs document. -/
def envEmptyOutputs : Env := ⟨.parsed stateRootModule, .parsed (.obj []), fun _ => false⟩

/-- Environment with a valid state and a non-empty outputs document that
carries none of the recognized keys. -/
def envSparseOutputs : Env :=
  ⟨.parsed stateRootModule, .parsed (.obj [("other", .num 1)]), fun _ => false⟩

/-- Environment with a valid state and complete outputs, all probes
failing. -/
def envComplete : Env :=
  ⟨.parsed stateRootModule, .parsed (.obj outputsComplete), fun _ => false⟩

/-- The example request of the specification. -/
def requestDemo : List (String × JVal) :=
  [("environment", .str "dev"), ("vm_count", .num 2),
   ("vm_size", .str "Standard_B2s"), ("location", .str "eastus"),
   ("project_name", .str "demo")]

/-- The example tags mapping of the specification. -/
def demoTags : List (String × JVal) := [("team", .str "infra"), ("tier", .str "prod")]

/-- The example request extended with the example tags mapping. -/
def requestDemoTags : List (String × JVal) := requestDemo ++ [("tags", .obj demoTags)]

/-- The example request with vm_count given as the boolean true. -/
def requestBoolCount : List (String × JVal) :=
  [("environment", .str "dev"), ("vm_count", .bool true),
   ("vm_size", .str "Standard_B2s"), ("location", .str "eastus"),
   ("project_name", .str "demo")]

/-- A request missing vm_size while the other required fields are
present, to exercise first-missing reporting. -/
def requestMissingSize : List (String × JVal) :=
  [("environment", .str "dev"), ("vm_count", .num 2),
   ("location", .str "eastus"), ("project_name", .str "demo")]

/-- A request with all required fields and vm_count zero. -/
def requestZeroCount : List (String × JVal) :=
  [("environment", .str "dev"), ("vm_count", .num 0),
   ("vm_size", .str "Standard_B2s"), ("location", .str "eastus"),
   ("project_name", .str "demo")]

theorem lookupKey_mem {kvs : List (String × JVal)} {k : String} {v : JVal}
    (hf : lookupKey kvs k = some v) : ∃ kv, kv ∈ kvs ∧ kv.1 = k ∧ kv.2 = v := by
  unfold lookupKey at hf
  cases hfind : kvs.find? (fun kv => kv.1 = k) with
  | none => rw [hfind] at hf; exact Option.noConfusion hf
  | some kv =>
    rw [hfind] at hf
    obtain rfl : kv.2 = v := by
      have : some kv.2 = some v := hf
      exact Option.some.inj this
    have hp := List.find?_some hfind
    exact ⟨kv, List.mem_of_find?_eq_some hfind, by simpa using hp, rfl⟩

theorem lookupKey_good {kvs : List (String × JVal)}
    (h : IsBackendOutputs (.obj kvs) = true) {k : String} {v : JVal}
    (hf : lookupKey kvs k = some v) : goodOutputValue k v = true := by
  obtain ⟨kv, hmem, hk, hv⟩ := lookupKey_mem hf
  subst hk
  subst hv
  exact List.all_eq_true.mp h kv hmem

theorem checkKeyValue_good {kvs : List (String × JVal)}
    (h : IsBackendOutputs (.obj kvs) = true) (key : String) (ul ui : Bool) :
    checkKeyValue (.obj kvs) key ul ui = .ok (lookupKey kvs key).isSome := by
  unfold checkKeyValue
  cases hf : lookupKey kvs key with
  | none => simp [pyIn, hf]
  | some v =>
    have hg := lookupKey_good h hf
    have hgetv : pyGet (.obj kvs) key = .ok v := by simp [pyGet, hf]
    cases v with
    | obj vkvs =>
      simp only [goodOutputValue] at hg
      cases hval : lookupKey vkvs "value" with
      | none => rw [hval] at hg; simp at hg
      | some t =>
        rw [hval] at hg
        have hgett : pyGet (.obj vkvs) "value" = .ok t := by simp [pyGet, hval]
        cases t with
        | null => exfalso; by_cases hk : key = "provisioning_summary" <;> simp [hk] at hg
        | bool b => exfalso; by_cases hk : key = "provisioning_summary" <;> simp [hk] at hg
        | num n => exfalso; by_cases hk : key = "provisioning_summary" <;> simp [hk] at hg
        | str s =>
          cases ul <;> cases ui <;>
            simp [pyIn, hf, hgetv, hgett, pyLen, pyIterList, Except.map]
        | arr xs =>
          cases ul <;> cases ui <;>
            simp [pyIn, hf, hgetv, hgett, pyLen, pyIterList, Except.map]
        | obj os =>
          cases ul <;> cases ui <;>
            simp [pyIn, hf, hgetv, hgett, pyLen, pyIterList, Except.map]
    | null => simp [goodOutputValue] at hg
    | bool b => simp [goodOutputValue] at hg
    | num n => simp [goodOutputValue] at hg
    | str s => simp [goodOutputValue] at hg
    | arr xs => simp [goodOutputValue] at hg

theorem validate_resources_good {kvs : List (String × JVal)}
    (h : IsBackendOutputs (.obj kvs) = true) :
    validate_resources (.obj kvs) =
      .ok (requiredKeysPresent (.obj kvs), missingKeyDiags (.obj kvs)) := by
  unfold validate_resources
  rw [checkKeyValue_good h, checkKeyValue_good h, checkKeyValue_good h,
    checkKeyValue_good h]
  cases h1 : lookupKey kvs "resource_group_name" <;>
    cases h2 : lookupKey kvs "vm_names" <;>
    cases h3 : lookupKey kvs "vm_public_ips" <;>
    cases h4 : lookupKey kvs "vm_private_ips" <;>
      simp [requiredKeysPresent, requiredOutputKeys, missingKeyDiags,
        outputKeyPresent, missingKeyDiag, h1, h2, h3, h4]

theorem ping_vms_good {kvs : List (String × JVal)}
    (h : IsBackendOutputs (.obj kvs) = true) (reach : JVal → Bool) :
    ∃ obs, ping_vms (.obj kvs) reach = .ok (true, obs) := by
  unfold ping_vms
  cases hf : lookupKey kvs "vm_public_ips" with
  | none => exact ⟨[], by simp [pyIn, hf]⟩
  | some v =>
    have hg := lookupKey_good h hf
    have hgetv : pyGet (.obj kvs) "vm_public_ips" = .ok v := by simp [pyGet, hf]
    cases v with
    | obj vkvs =>
      simp only [goodOutputValue] at hg
      cases hval : lookupKey vkvs "value" with
      | none => rw [hval] at hg; simp at hg
      | some t =>
        rw [hval] at hg
        have hgett : pyGet (.obj vkvs) "value" = .ok t := by simp [pyGet, hval]
        cases t with
        | null => simp at hg
        | bool b => simp at hg
        | num n => simp at hg
        | str s => exact ⟨_, by simp [pyIn, hf, hgetv, hgett, pyIterList] <;> rfl⟩
        | arr xs => exact ⟨_, by simp [pyIn, hf, hgetv, hgett, pyIterList] <;> rfl⟩
        | obj os => exact ⟨_, by simp [pyIn, hf, hgetv, hgett, pyIterList] <;> rfl⟩
    | null => simp [goodOutputValue] at hg
    | bool b => simp [goodOutputValue] at hg
    | num n => simp [goodOutputValue] at hg
    | str s => simp [goodOutputValue] at hg
    | arr xs => simp [goodOutputValue] at hg

theorem generate_report_good {kvs : List (String × JVal)}
    (h : IsBackendOutputs (.obj kvs) = true) :
    ∃ rep, generate_report (.obj kvs) = .ok rep := by
  have hsum : ∃ skvs, pyGetD ((lookupKey kvs "provisioning_summary").getD (.obj []))
      "value" (.obj []) = .ok (.obj skvs) := by
    cases hf : lookupKey kvs "provisioning_summary" with
    | none => exact ⟨[], by simp [pyGetD, lookupKey]⟩
    | some v =>
      have hg := lookupKey_good h hf
      cases v with
      | obj vkvs =>
        simp only [goodOutputValue] at hg
        cases hval : lookupKey vkvs "value" with
        | none => rw [hval] at hg; simp at hg
        | some t =>
          rw [hval] at hg
          cases t with
          | obj tkvs => exact ⟨tkvs, by simp [pyGetD, hval]⟩
          | null => simp at hg
          | bool b => simp at hg
          | num n => simp at hg
          | str s => simp at hg
          | arr xs => simp at hg
      | null => simp [goodOutputValue] at hg
      | bool b => simp [goodOutputValue] at hg
      | num n => simp [goodOutputValue] at hg
      | str s => simp [goodOutputValue] at hg
      | arr xs => simp [goodOutputValue] at hg
  obtain ⟨skvs, hsum⟩ := hsum
  unfold generate_report
  by_cases ht : pyTruthy (.obj kvs) = false
  · rw [if_pos ht]; exact ⟨_, rfl⟩
  · rw [if_neg ht]
    have hps : pyGetD (.obj kvs) "provisioning_summary" (.obj []) =
        .ok ((lookupKey kvs "provisioning_summary").getD (.obj [])) := by
      simp [pyGetD]
    simp only [hps]
    rw [hsum]
    simp only [pyGetD]
    cases hcc : lookupKey kvs "connection_commands" with
    | none => exact ⟨_, by simp [pyGetD, pyIn, hcc] <;> rfl⟩
    | some v =>
      have hg := lookupKey_good h hcc
      have hgetv : pyGet (.obj kvs) "connection_commands" = .ok v := by
        simp [pyGet, hcc]
      cases v with
      | obj vkvs =>
        simp only [goodOutputValue] at hg
        cases hval : lookupKey vkvs "value" with
        | none => rw [hval] at hg; simp at hg
        | some t =>
          rw [hval] at hg
          have hgett : pyGet (.obj vkvs) "value" = .ok t := by simp [pyGet, hval]
          cases t with
          | null => simp at hg
          | bool b => simp at hg
          | num n => simp at hg
          | str s => exact ⟨_, by simp [pyGetD, pyIn, hcc, hgetv, hgett, pyIterList] <;> rfl⟩
          | arr xs => exact ⟨_, by simp [pyGetD, pyIn, hcc, hgetv, hgett, pyIterList] <;> rfl⟩
          | obj os => exact ⟨_, by simp [pyGetD, pyIn, hcc, hgetv, hgett, pyIterList] <;> rfl⟩
      | null => simp [goodOutputValue] at hg
      | bool b => simp [goodOutputValue] at hg
      | num n => simp [goodOutputValue] at hg
      | str s => simp [goodOutputValue] at hg
      | arr xs => simp [goodOutputValue] at hg

theorem truthy_of_required {kvs : List (String × JVal)}
    (h : requiredKeysPresent (.obj kvs) = true) : pyTruthy (.obj kvs) = true := by
  cases kvs with
  | nil =>
    simp [requiredKeysPresent, requiredOutputKeys, outputKeyPresent, lookupKey,
      List.find?] at h
  | cons kv rest => simp [pyTruthy]

theorem missingKeyDiags_nil {kvs : List (String × JVal)}
    (h : requiredKeysPresent (.obj kvs) = true) :
    missingKeyDiags (.obj kvs) = [] := by
  simp only [requiredKeysPresent, requiredOutputKeys, List.all_cons, List.all_nil,
    Bool.and_true, Bool.and_eq_true] at h
  obtain ⟨h1, h2, h3, h4⟩ := h
  simp only [outputKeyPresent] at h1 h2 h3 h4
  simp [missingKeyDiags, requiredOutputKeys, List.filter, outputKeyPresent,
    h1, h2, h3, h4]

theorem runPipeline_done {env : Env} {kvs : List (String × JVal)}
    (hst : check_terraform_state env.stateResp = .ok true)
    (hout : env.outputsResp = .parsed (.obj kvs))
    (hgood : IsBackendOutputs (.obj kvs) = true)
    (hreq : requiredKeysPresent (.obj kvs) = true) :
    runPipeline env =
      ([.fetchState, .fetchOutputs, .validating, .probing, .reporting], .done) := by
  obtain ⟨obs, hping⟩ := ping_vms_good hgood env.reach
  obtain ⟨rep, hrep⟩ := generate_report_good hgood
  have hval := validate_resources_good hgood
  rw [hreq, missingKeyDiags_nil hreq] at hval
  unfold runPipeline
  rw [hst, hout]
  simp [get_terraform_outputs, truthy_of_required hreq, hval, hping, hrep]

theorem findMissingField_some {fields : List String} {kvs : List (String × JVal)}
    {f : String}
    (h : fields.find? (fun g => (lookupKey kvs g).isNone) = some f) :
    findMissingField fields (.obj kvs) = .ok (some f) := by
  induction fields with
  | nil => simp [List.find?] at h
  | cons g rest ih =>
    cases hg : lookupKey kvs g with
    | none =>
      simp only [List.find?, hg, Option.isNone_none] at h
      obtain rfl : g = f := Option.some.inj h
      simp [findMissingField, pyIn, hg]
    | some v =>
      simp only [List.find?, hg, Option.isNone_some] at h
      simp [findMissingField, pyIn, hg, ih h]

theorem findMissingField_none {fields : List String} {kvs : List (String × JVal)}
    (h : ∀ g ∈ fields, (lookupKey kvs g).isSome = true) :
    findMissingField fields (.obj kvs) = .ok none := by
  induction fields with
  | nil => rfl
  | cons g rest ih =>
    have hg := h g (by simp)
    cases hgl : lookupKey kvs g with
    | none => rw [hgl] at hg; simp at hg
    | some v =>
      simp [findMissingField, pyIn, hgl, ih (fun x hx => h x (by simp [hx]))]

theorem vm_cond_eq (v : JVal) :
    (!isPyInt v || decide (pyIntVal v < 1)) = !vm_count_ok v := by
  cases v with
  | num n =>
    simp only [isPyInt, pyIntVal, vm_count_ok, Bool.not_true, Bool.false_or]
    by_cases h : n < 1
    · simp [h, show ¬(1 ≤ n) by omega]
    · simp [h, show 1 ≤ n by omega]
  | bool b => cases b <;> simp [isPyInt, pyIntVal, vm_count_ok]
  | null => simp [isPyInt, vm_count_ok]
  | str s => simp [isPyInt, vm_count_ok]
  | arr xs => simp [isPyInt, vm_count_ok]
  | obj kvs => simp [isPyInt, vm_count_ok]

/-- C1: if the backend state fetch fails, that is check_terraform_state
does not return True (the external command exited non-zero, its output was
unparsable, or the parsed state failed the structure condition), then main
performs no further component invocation, terminates in a non-Done state
with exit code 1, and when the check returned a clean False the terminal
state is the printed Invalid Terraform state failure. -/
theorem c1_state_fetch_failure_halts (env : Env)
    (h : check_terraform_state env.stateResp ≠ .ok true) :
    (runPipeline env).1 = [Stage.fetchState] ∧
    (runPipeline env).2 ≠ Terminal.done ∧
    exit_code (runPipeline env).2 = 1 ∧
    (check_terraform_state env.stateResp = .ok false →
      (runPipeline env).2 = Terminal.failed "Invalid Terraform state") := by
  unfold runPipeline
  cases hc : check_terraform_state env.stateResp with
  | error e => simp [exit_code]
  | ok b =>
    cases b with
    | false => simp [exit_code]
    | true => exact absurd hc h

theorem c1_state_fetch_failure_halts_witness :
    (runPipeline envStateDown).1 = [Stage.fetchState] ∧
    (runPipeline envStateDown).2 ≠ Terminal.done ∧
    exit_code (runPipeline envStateDown).2 = 1 ∧
    (check_terraform_state envStateDown.stateResp = .ok false →
      (runPipeline envStateDown).2 = Terminal.failed "Invalid Terraform state") :=
  c1_state_fetch_failure_halts envStateDown
    (by simp [envStateDown, check_terraform_state])

/-- C2: on every document of the BackendOutputs shape, validate_resources
returns the conjunction of the presence of the four required keys together
with one diagnostic per missing key in check order, so the verdict is true
exactly when all four keys are present and a run missing several keys
reports each of them. -/
theorem c2_resource_validator_presence (kvs : List (String × JVal))
    (h : IsBackendOutputs (.obj kvs) = true) :
    validate_resources (.obj kvs) =
      .ok (requiredKeysPresent (.obj kvs), missingKeyDiags (.obj kvs)) ∧
    (requiredKeysPresent (.obj kvs) = true ↔
      ((lookupKey kvs "resource_group_name").isSome = true ∧
       (lookupKey kvs "vm_names").isSome = true ∧
       (lookupKey kvs "vm_public_ips").isSome = true ∧
       (lookupKey kvs "vm_private_ips").isSome = true)) := by
  refine ⟨validate_resources_good h, ?_⟩
  simp [requiredKeysPresent, requiredOutputKeys, outputKeyPresent, and_assoc]

theorem c2_resource_validator_presence_witness :
    validate_resources (.obj outputsTwoKeys) =
      .ok (false, ["Public IPs not found", "Private IPs not found"]) := by
  have h := (c2_resource_validator_presence outputsTwoKeys rfl).1
  simpa using h

/-- C3 counterexample: a run whose outputs query succeeds and parses as
the empty JSON object is not passed on to ResourceValidator; main treats
the falsy document like an unavailable one and fails with the no-outputs
reason, refuting the claim that every successfully parsed document
reaches the ValidatingResources stage. -/
theorem c3_empty_outputs_counterexample :
    get_terraform_outputs envEmptyOutputs.outputsResp = some (.obj []) ∧
    runPipeline envEmptyOutputs =
      ([Stage.fetchState, Stage.fetchOutputs], .failed "Could not retrieve outputs") ∧
    Stage.validating ∉ (runPipeline envEmptyOutputs).1 := by
  refine ⟨rfl, rfl, ?_⟩
  intro hm
  simp [runPipeline, envEmptyOutputs, stateRootModule, check_terraform_state,
    pyIn, pyGet, lookupKey, List.find?, get_terraform_outputs, pyTruthy] at hm

/-- C3 amended: after a valid state, a successfully parsed outputs
document reaches the ValidatingResources stage exactly when it is truthy;
a falsy parsed document (such as the empty object) is treated like an
unavailable one and yields the no-outputs failure. -/
theorem c3_truthy_outputs_proceed (env : Env) (v : JVal)
    (hst : check_terraform_state env.stateResp = .ok true)
    (hout : env.outputsResp = .parsed v) :
    (pyTruthy v = true → Stage.validating ∈ (runPipeline env).1) ∧
    (pyTruthy v = false →
      runPipeline env =
        ([Stage.fetchState, Stage.fetchOutputs], .failed "Could not retrieve outputs")) := by
  unfold runPipeline
  rw [hst, hout]
  simp only [get_terraform_outputs]
  constructor
  · intro ht
    rw [if_neg (by simp [ht])]
    rcases hv : validate_resources v with e | ⟨b, ds⟩
    · simp
    · cases b with
      | false => simp
      | true =>
        rcases hp : ping_vms v env.reach with e | pr
        · simp
        · rcases hr : generate_report v with e | rp
          · simp
          · simp
  · intro hf
    rw [if_pos hf]

theorem c3_truthy_outputs_proceed_witness :
    Stage.validating ∈ (runPipeline envSparseOutputs).1 ∧
    runPipeline envEmptyOutputs =
      ([Stage.fetchState, Stage.fetchOutputs], .failed "Could not retrieve outputs") :=
  ⟨(c3_truthy_outputs_proceed envSparseOutputs (.obj [("other", .num 1)]) rfl rfl).1 rfl,
   (c3_truthy_outputs_proceed envEmptyOutputs (.obj []) rfl rfl).2 rfl⟩

/-- C4 counterexample: the parsed state whose values entry is the bare
string root_module is judged valid by check_terraform_state, because the
Python membership test finds root_module as a substring, although the
state holds no root-module structure, refuting the claimed equivalence. -/
theorem c4_substring_state_counterexample :
    check_terraform_state (.parsed stateStringValues) = .ok true ∧
    specStateValid stateStringValues = false := ⟨rfl, rfl⟩

/-- C4 amended: check_terraform_state accepts a parsed state exactly when
the document is a mapping whose values entry contains root_module under
Python membership semantics: as a key of a mapping value, as an element of
a list value, or as a substring of a string value; the contents of the
root module itself are never examined. -/
theorem c4_membership_state_condition (state : JVal) :
    check_terraform_state (.parsed state) = .ok true ↔
      membershipStateValid state = true := by
  cases state with
  | null => simp [check_terraform_state, pyIn, membershipStateValid]
  | bool b => simp [check_terraform_state, pyIn, membershipStateValid]
  | num n => simp [check_terraform_state, pyIn, membershipStateValid]
  | str s =>
    simp only [check_terraform_state, pyIn, membershipStateValid]
    cases charsSubstrOf "values".toList s.toList <;> simp [pyGet]
  | arr xs =>
    simp only [check_terraform_state, pyIn, membershipStateValid]
    cases xs.any (fun v => match v with | .str s => s = "values" | _ => false) <;>
      simp [pyGet]
  | obj kvs =>
    simp only [check_terraform_state, membershipStateValid]
    rw [show pyIn "values" (.obj kvs) = .ok (lookupKey kvs "values").isSome from rfl]
    cases hf : lookupKey kvs "values" with
    | none => simp
    | some v =>
      have hget : pyGet (.obj kvs) "values" = .ok v := by simp [pyGet, hf]
      simp only [Option.isSome_some, hget]
      rcases hin : pyIn "root_module" v with e | b
      · simp [hin]
      · cases b <;> simp [hin]

/-- C5 counterexample: an outputs document with all four required keys
present but a number as the vm_names value content makes
validate_resources raise a TypeError at the len call instead of returning
true, refuting the claim that the check succeeds regardless of value
shapes. -/
theorem c5_shape_crash_counterexample :
    requiredKeysPresent (.obj outputsBadShape) = true ∧
    validate_resources (.obj outputsBadShape) = .error () := ⟨rfl, rfl⟩

/-- C5 amended: on outputs matching the BackendOutputs data model, the
check is presence-only: when all four required keys are present it returns
true with no diagnostics, without constraining the value contents beyond
that model (a string vm_names content passes; no sequence check is made);
outside that model a present key with an un-sized content raises instead
of producing a verdict. -/
theorem c5_presence_only_on_model (kvs : List (String × JVal))
    (h : IsBackendOutputs (.obj kvs) = true)
    (hreq : requiredKeysPresent (.obj kvs) = true) :
    validate_resources (.obj kvs) = .ok (true, []) := by
  have hv := validate_resources_good h
  rw [hreq, missingKeyDiags_nil hreq] at hv
  exact hv

theorem c5_presence_only_on_model_witness :
    validate_resources (.obj outputsStrNames) = .ok (true, []) :=
  c5_presence_only_on_model outputsStrNames rfl rfl

/-- C6: the connectivity probe never returns failure to the pipeline: with
vm_public_ips absent the probe is skipped and succeeds; with it present as
a sequence of addresses the probe succeeds for every combination of
reachable and unreachable addresses, recording only observations; and a
run over outputs of the BackendOutputs shape whose earlier stages all
passed reaches Reporting and terminates Done with exit code 0 whatever the
reachability oracle says. -/
theorem c6_probe_never_fails_pipeline :
    (∀ (kvs : List (String × JVal)) (reach : JVal → Bool),
      lookupKey kvs "vm_public_ips" = none →
      ping_vms (.obj kvs) reach = .ok (true, [])) ∧
    (∀ (kvs : List (String × JVal)) (reach : JVal → Bool) (ips : List JVal),
      lookupKey kvs "vm_public_ips" = some (.obj [("value", .arr ips)]) →
      ping_vms (.obj kvs) reach = .ok (true, ips.map reach)) ∧
    (∀ (env : Env) (kvs : List (String × JVal)),
      env.outputsResp = .parsed (.obj kvs) →
      check_terraform_state env.stateResp = .ok true →
      IsBackendOutputs (.obj kvs) = true →
      requiredKeysPresent (.obj kvs) = true →
      runPipeline env =
        ([.fetchState, .fetchOutputs, .validating, .probing, .reporting], .done) ∧
      exit_code (runPipeline env).2 = 0) := by
  refine ⟨?_, ?_, ?_⟩
  · intro kvs reach hf
    simp [ping_vms, pyIn, hf]
  · intro kvs reach ips hf
    have hin : pyIn "vm_public_ips" (.obj kvs) = .ok true := by simp [pyIn, hf]
    have hget : pyGet (.obj kvs) "vm_public_ips" = .ok (.obj [("value", .arr ips)]) := by
      simp [pyGet, hf]
    have hgett : pyGet (.obj [("value", JVal.arr ips)]) "value" = .ok (.arr ips) := by
      simp [pyGet, lookupKey, List.find?]
    simp [ping_vms, hin, hget, hgett, pyIterList]
  · intro env kvs hout hst hgood hreq
    have hd := runPipeline_done hst hout hgood hreq
    refine ⟨hd, ?_⟩
    rw [hd]
    rfl

theorem c6_probe_never_fails_pipeline_witness :
    ping_vms (.obj [("other", .num 1)]) (fun _ => false) = .ok (true, []) ∧
    ping_vms (.obj outputsComplete) (fun _ => false) = .ok (true, [false]) ∧
    runPipeline envComplete =
      ([.fetchState, .fetchOutputs, .validating, .probing, .reporting], .done) :=
  ⟨c6_probe_never_fails_pipeline.1 [("other", .num 1)] (fun _ => false) rfl,
   c6_probe_never_fails_pipeline.2.1 outputsComplete (fun _ => false) [.str "1.2.3.4"] rfl,
   (c6_probe_never_fails_pipeline.2.2 envComplete outputsComplete rfl rfl rfl rfl).1⟩

/-- C7: a mapping-shaped request missing at least one required field is
rejected by validate_input with exactly the first missing field in the
declaration order environment, vm_count, vm_size, location, project_name,
before any later check runs. -/
theorem c7_first_missing_field (kvs : List (String × JVal)) (f : String)
    (h : firstMissingReq kvs = some f) :
    validate_input (.obj kvs) = .ok (some (.missingField f)) := by
  have h1 : required_fields.find? (fun g => (lookupKey kvs g).isNone) = some f := h
  have h2 := findMissingField_some h1
  unfold validate_input
  simp [h2]

theorem c7_first_missing_field_witness :
    validate_input (.obj requestMissingSize) = .ok (some (.missingField "vm_size")) :=
  c7_first_missing_field requestMissingSize "vm_size" rfl

/-- C8: on a request with all required fields present, the vm_count check
of validate_input fails exactly when the supplied vm_count is not a Python
int (booleans included, bool being a subtype of int) of value at least 1,
independently of the values of the other fields. -/
theorem c8_vm_count_check (kvs : List (String × JVal)) (v : JVal)
    (hall : firstMissingReq kvs = none)
    (hvc : lookupKey kvs "vm_count" = some v) :
    (validate_input (.obj kvs) = .ok (some .badVmCount) ↔ vm_count_ok v = false) := by
  have hall1 : required_fields.find? (fun g => (lookupKey kvs g).isNone) = none := hall
  have hpres : ∀ g ∈ required_fields, (lookupKey kvs g).isSome = true := by
    intro g hg
    have hn := List.find?_eq_none.mp hall1 g hg
    cases hgl : lookupKey kvs g with
    | none => rw [hgl] at hn; simp at hn
    | some w => simp
  have hmiss := findMissingField_none hpres
  have he : (lookupKey kvs "environment").isSome = true :=
    hpres "environment" (by simp [required_fields])
  obtain ⟨e, hee⟩ := Option.isSome_iff_exists.mp he
  have hget : pyGet (.obj kvs) "vm_count" = .ok v := by simp [pyGet, hvc]
  have hgete : pyGet (.obj kvs) "environment" = .ok e := by simp [pyGet, hee]
  unfold validate_input
  simp only [hmiss, hget, vm_cond_eq]
  cases hok : vm_count_ok v with
  | false => simp
  | true =>
    simp only [Bool.not_true]
    rw [if_neg (by simp)]
    simp only [hgete]
    split <;> simp

theorem c8_vm_count_check_witness :
    (validate_input (.obj requestZeroCount) = .ok (some .badVmCount) ↔
      vm_count_ok (.num 0) = false) :=
  c8_vm_count_check requestZeroCount (.num 0) rfl rfl

/-- C9: the example request renders a variable file containing the
unquoted integer vm_count line and the defaulted quoted admin_username
line and no tags text at all; and every request carrying the five
required fields and a non-empty tags mapping renders a file ending with
the tags block that lists every entry in insertion order with the value
quoted. -/
theorem c9_tfvars_rendering :
    (∃ s, tfvars_content "inputs/server_request.json" (.obj requestDemo) = .ok s ∧
      strContains s "vm_count         = 2" = true ∧
      strContains s "admin_username   = \"azureuser\"" = true ∧
      strContains s "tags" = false) ∧
    (∀ (f : String) (kvs tkvs : List (String × JVal)) (ve vp vl vc vs : JVal),
      lookupKey kvs "environment" = some ve →
      lookupKey kvs "project_name" = some vp →
      lookupKey kvs "location" = some vl →
      lookupKey kvs "vm_count" = some vc →
      lookupKey kvs "vm_size" = some vs →
      lookupKey kvs "tags" = some (.obj tkvs) →
      tkvs ≠ [] →
      ∃ base, tfvars_content f (.obj kvs) = .ok (base ++ renderTags tkvs)) := by
  constructor
  · exact ⟨_, rfl, rfl, rfl, rfl⟩
  · intro f kvs tkvs ve vp vl vc vs h1 h2 h3 h4 h5 ht hne
    have g1 : pyGet (.obj kvs) "environment" = .ok ve := by simp [pyGet, h1]
    have g2 : pyGet (.obj kvs) "project_name" = .ok vp := by simp [pyGet, h2]
    have g3 : pyGet (.obj kvs) "location" = .ok vl := by simp [pyGet, h3]
    have g4 : pyGet (.obj kvs) "vm_count" = .ok vc := by simp [pyGet, h4]
    have g5 : pyGet (.obj kvs) "vm_size" = .ok vs := by simp [pyGet, h5]
    have gt : pyGet (.obj kvs) "tags" = .ok (.obj tkvs) := by simp [pyGet, ht]
    have gin : pyIn "tags" (.obj kvs) = .ok true := by simp [pyIn, ht]
    have gtr : pyTruthy (.obj tkvs) = true := by
      cases tkvs with
      | nil => exact absurd rfl hne
      | cons a l => rfl
    have hbase : ∃ base, tfvars_base f (.obj kvs) = .ok base := by
      unfold tfvars_base
      simp only [g1, g2, g3, g4, g5, pyGetD]
      exact ⟨_, rfl⟩
    obtain ⟨base, hbase⟩ := hbase
    refine ⟨base, ?_⟩
    unfold tfvars_content
    simp only [hbase, gin, gt, gtr]
    simp

theorem c9_tfvars_rendering_witness :
    ∃ base, tfvars_content "inputs/server_request.json" (.obj requestDemoTags) =
      .ok (base ++ renderTags demoTags) :=
  c9_tfvars_rendering.2 "inputs/server_request.json" requestDemoTags demoTags
    (.str "dev") (.str "demo") (.str "eastus") (.num 2) (.str "Standard_B2s")
    rfl rfl rfl rfl rfl rfl (by simp [demoTags])

/-- C10: a request supplying vm_count as the JSON boolean true passes
validate_input, the isinstance int test accepting the boolean and True
comparing as 1, and the rendered variable file shows the assignment as
True rather than as an integer literal. -/
theorem c10_bool_vm_count_accepted :
    validate_input (.obj requestBoolCount) = .ok none ∧
    ∃ s, tfvars_content "inputs/server_request.json" (.obj requestBoolCount) = .ok s ∧
      strContains s "vm_count         = True" = true ∧
      strContains s "vm_count         = 1" = false :=
  ⟨rfl, _, rfl, rfl, rfl⟩
